import Mathlib

/-!
# Verification of the stream-monitoring bot (`legacy.py`)

Shallow embedding of the stream bot: every browser/HTTP interaction the
program performs is recorded as an event, and each Python method is embedded
as a Lean function producing the list of events it emits, parameterised by
the results of the boolean queries it makes (element visibility, element
presence, the liveness probe's response body).  The unbounded `while` loop of
the Kick monitor is embedded with explicit fuel: `none` means the loop did
not terminate within the given fuel.
-/

/-- The two browser sessions: the primary driver owned by the orchestrator,
and the extra (secondary) driver a monitor may spawn. -/
inductive Sess where
  | primary
  | secondary
deriving DecidableEq, Repr

/-- One observable effect of the program: each constructor corresponds to one
call into the browser capability or the HTTP client in `legacy.py`. -/
inductive Ev where
  /-- `uc_open_with_reconnect(url, reconnect_time)` on a session. -/
  | navigate (s : Sess) (url : String) (reconnect : Nat)
  /-- `sleep(secs)` issued through a session. -/
  | sleep (s : Sess) (secs : Nat)
  /-- `uc_gui_click_captcha()`. -/
  | captchaClick (s : Sess)
  /-- `uc_gui_handle_captcha()`. -/
  | captchaHandle (s : Sess)
  /-- `is_element_present(sel)` evaluated with result `res`. -/
  | checkPresent (s : Sess) (sel : String) (res : Bool)
  /-- `is_element_visible(sel)` evaluated with result `res`. -/
  | checkVisible (s : Sess) (sel : String) (res : Bool)
  /-- `uc_click(sel, reconnect_time)`. -/
  | click (s : Sess) (sel : String) (reconnect : Nat)
  /-- `get_new_driver(undetectable=stealth)`: spawn the secondary session. -/
  | spawnSecondary (stealth : Bool)
  /-- `quit_extra_driver()` closes the secondary; `quit()`/scope exit closes
  the primary.  `closeSession s` records which session was destroyed. -/
  | closeSession (s : Sess)
  /-- The HTTP liveness probe `is_twitch_online(username)` with result `res`. -/
  | probeOnline (username : String) (res : Bool)
deriving DecidableEq, Repr

/-- The consent-button selector used throughout `legacy.py`. -/
def acceptSel : String := "button:contains(\"Accept\")"

/-- The Kick player-element selector from `monitor_kick_stream`. -/
def playerSel : String := "#injected-channel-player"

/-- `CaptchaHandler.handle_captcha` (legacy.py lines 44-49): click captcha,
sleep 1, handle captcha, sleep 4. -/
def handle_captcha (s : Sess) : List Ev :=
  [.captchaClick s, .sleep s 1, .captchaHandle s, .sleep s 4]

/-- `StreamBot.open_stream_and_handle_popups` (lines 59-69): navigate with
the given reconnect budget, sleep 4, run the captcha handler, then check for
the consent button (result `acceptPresent`) and click it if present. -/
def open_stream_and_handle_popups (s : Sess) (platform_url : String)
    (reconnect_time : Nat := 4) (acceptPresent : Bool := false) : List Ev :=
  [.navigate s platform_url reconnect_time, .sleep s 4]
    ++ handle_captcha s
    ++ [.checkPresent s acceptSel acceptPresent]
    ++ (if acceptPresent then [.click s acceptSel 4] else [])

/-- The `while driver.is_element_visible('#injected-channel-player'):
driver.sleep(10)` loop (lines 82-83).  `vis n` is the result of the n-th
evaluation of the visibility predicate inside the loop; the fuel bounds how
many evaluations we may perform, and `none` means the loop did not exit
within the fuel (in the program: the loop has not yet terminated). -/
def waitWhileVisible (vis : Nat → Bool) : Nat → Option (List Ev)
  | 0 => none
  | fuel + 1 =>
    if vis 0 then
      match waitWhileVisible (fun n => vis (n + 1)) fuel with
      | none => none
      | some tr => some (.checkVisible .primary playerSel true :: .sleep .primary 10 :: tr)
    else
      some [.checkVisible .primary playerSel false]

/-- `StreamBot.monitor_kick_stream` (lines 71-84).  `vis n` is the result of
the (n+1)-th evaluation of `is_element_visible('#injected-channel-player')`
on the primary session (`vis 0` is the entry check on line 75, `vis 1, ...`
drive the wait loop); `acceptSec1` is the consent-presence result inside the
secondary's `open_stream_and_handle_popups`, `acceptSec2` the re-check on
line 79. -/
def monitor_kick_stream (platform_url : String) (vis : Nat → Bool)
    (acceptSec1 acceptSec2 : Bool) (fuel : Nat) : Option (List Ev) :=
  if vis 0 then
    match waitWhileVisible (fun n => vis (n + 1)) fuel with
    | none => none
    | some wtr =>
      some ([.checkVisible .primary playerSel true, .spawnSecondary true]
        ++ open_stream_and_handle_popups .secondary platform_url 5 acceptSec1
        ++ [.sleep .primary 10, .checkPresent .secondary acceptSel acceptSec2]
        ++ (if acceptSec2 then [.click .secondary acceptSel 4] else [])
        ++ wtr
        ++ [.closeSession .secondary])
  else
    some [.checkVisible .primary playerSel false]

/-- `StreamStatusChecker.is_twitch_online` (lines 25-34), as a function of
the response body it fetches: `"isLiveBroadcast" in resp.text`. -/
def is_twitch_online (body : String) : Bool :=
  decide ("isLiveBroadcast".toList <:+: body.toList)

/-- The Twitch channel URL template `f"https://www.twitch.tv/{username}"`. -/
def twitchUrl (username : String) : String :=
  "https://www.twitch.tv/" ++ username

/-- `StreamBot.monitor_twitch_stream` (lines 86-104), as a function of the
probe's response `body` and of the two consent-presence results
(`acceptPrim` on the primary, line 93; `acceptSec` on the secondary,
line 98).  The commented-out wait loop (lines 100-103) emits nothing. -/
def monitor_twitch_stream (username : String) (body : String)
    (acceptPrim acceptSec : Bool) : List Ev :=
  let online := is_twitch_online body
  .probeOnline username online ::
    (if online then
      [.navigate .primary (twitchUrl username) 5,
       .checkPresent .primary acceptSel acceptPrim]
      ++ (if acceptPrim then [.click .primary acceptSel 4] else [])
      ++ [.spawnSecondary true,
          .navigate .secondary (twitchUrl username) 5,
          .sleep .primary 10,
          .checkPresent .secondary acceptSel acceptSec]
      ++ (if acceptSec then [.click .secondary acceptSel 4] else [])
      ++ [.closeSession .secondary]
    else [])

/-- `StreamBot.run` (lines 106-115): open the primary, run the Kick monitor,
sleep 1, run the Twitch monitor, sleep 1, and close the primary when the
`with SB(...)` scope exits.  `none` if the Kick monitor does not terminate
within the fuel. -/
def run (username platform_url : String) (acceptPrim : Bool)
    (vis : Nat → Bool) (acceptK1 acceptK2 : Bool) (body : String)
    (acceptT1 acceptT2 : Bool) (fuel : Nat) : Option (List Ev) :=
  match monitor_kick_stream platform_url vis acceptK1 acceptK2 fuel with
  | none => none
  | some ktr =>
    some (open_stream_and_handle_popups .primary platform_url 4 acceptPrim
      ++ ktr
      ++ [.sleep .primary 1]
      ++ monitor_twitch_stream username body acceptT1 acceptT2
      ++ [.sleep .primary 1, .closeSession .primary])

/-- Number of secondary-session spawns in a trace. -/
def countSpawn (tr : List Ev) : Nat :=
  tr.countP fun e => match e with
    | .spawnSecondary _ => true
    | _ => false

/-- Number of destructions of session `s` in a trace. -/
def countClose (s : Sess) (tr : List Ev) : Nat :=
  tr.countP fun e => match e with
    | .closeSession t => decide (t = s)
    | _ => false

/-- Number of click attempts in a trace. -/
def countClicks (tr : List Ev) : Nat :=
  tr.countP fun e => match e with
    | .click _ _ _ => true
    | _ => false

/-- Number of element-visibility polls in a trace. -/
def countVisChecks (tr : List Ev) : Nat :=
  tr.countP fun e => match e with
    | .checkVisible _ _ _ => true
    | _ => false

/-- Number of sleep events issued through session `s` in a trace. -/
def countSleepsOn (s : Sess) (tr : List Ev) : Nat :=
  tr.countP fun e => match e with
    | .sleep t _ => decide (t = s)
    | _ => false

/-- Trace emitted by the wait loop when the visibility predicate holds for
the first `k` polls and fails at poll `k`. -/
def waitTrace : Nat → List Ev
  | 0 => [.checkVisible .primary playerSel false]
  | k + 1 => .checkVisible .primary playerSel true :: .sleep .primary 10 :: waitTrace k

theorem waitWhileVisible_exits (k : Nat) :
    ∀ vis : Nat → Bool, (∀ i, i < k → vis i = true) → vis k = false →
      ∀ fuel, k < fuel → waitWhileVisible vis fuel = some (waitTrace k) := by
  induction k with
  | zero =>
    intro vis _ hk fuel hf
    obtain ⟨f, rfl⟩ : ∃ f, fuel = f + 1 := ⟨fuel - 1, by omega⟩
    simp [waitWhileVisible, hk, waitTrace]
  | succ k ih =>
    intro vis hlt hk fuel hf
    obtain ⟨f, rfl⟩ : ∃ f, fuel = f + 1 := ⟨fuel - 1, by omega⟩
    have h0 : vis 0 = true := hlt 0 (Nat.succ_pos k)
    have hrec := ih (fun n => vis (n + 1)) (fun i hi => hlt (i + 1) (by omega)) hk f (by omega)
    simp [waitWhileVisible, h0, hrec, waitTrace]

theorem waitWhileVisible_diverges (fuel : Nat) :
    ∀ vis : Nat → Bool, (∀ n, vis n = true) → waitWhileVisible vis fuel = none := by
  induction fuel with
  | zero => intro vis _; rfl
  | succ f ih =>
    intro vis hv
    simp [waitWhileVisible, hv 0, ih (fun n => vis (n + 1)) (fun n => hv (n + 1))]

theorem waitWhileVisible_events (fuel : Nat) :
    ∀ (vis : Nat → Bool) (tr : List Ev), waitWhileVisible vis fuel = some tr →
      ∀ e ∈ tr, (∃ r, e = .checkVisible .primary playerSel r) ∨ e = .sleep .primary 10 := by
  induction fuel with
  | zero => intro vis tr h; simp [waitWhileVisible] at h
  | succ f ih =>
    intro vis tr h e he
    by_cases h0 : vis 0 = true
    · cases hw : waitWhileVisible (fun n => vis (n + 1)) f with
      | none => simp [waitWhileVisible, h0, hw] at h
      | some wtr =>
        simp [waitWhileVisible, h0, hw] at h
        subst h
        simp only [List.mem_cons] at he
        rcases he with rfl | rfl | he
        · exact Or.inl ⟨true, rfl⟩
        · exact Or.inr rfl
        · exact ih (fun n => vis (n + 1)) wtr hw e he
    · simp [waitWhileVisible, h0] at h
      subst h
      simp only [List.mem_singleton] at he
      exact Or.inl ⟨false, he⟩

theorem waitWhileVisible_countP (fuel : Nat) (vis : Nat → Bool) (tr : List Ev)
    (h : waitWhileVisible vis fuel = some tr) (p : Ev → Bool)
    (h1 : ∀ r, p (.checkVisible .primary playerSel r) = false)
    (h2 : p (.sleep .primary 10) = false) :
    tr.countP p = 0 := by
  rw [List.countP_eq_zero]
  intro a ha
  rcases waitWhileVisible_events fuel vis tr h a ha with ⟨r, rfl⟩ | rfl
  · simp [h1]
  · simp [h2]

/-- C1: for every response body, `is_twitch_online` returns true if and only
if the body contains the literal substring "isLiveBroadcast"; it returns
false for every body not containing it. -/
theorem C1_is_online_iff_marker (body : String) :
    is_twitch_online body = true ↔
      ∃ pre post, pre ++ "isLiveBroadcast".toList ++ post = body.toList := by
  unfold is_twitch_online
  rw [decide_eq_true_iff]
  exact Iff.rfl

/-- C3: the WAIT_WHILE_PRESENT loop of the Kick monitor exits exactly at the
first false evaluation of the presence predicate: with polls true, true,
true, false it performs exactly three 10-second waits and exits (for every
sufficient fuel), and with polls that are never false it does not terminate
within any fuel bound. -/
theorem C3_wait_loop_termination (pred : Nat → Bool) :
    (pred 0 = true → pred 1 = true → pred 2 = true → pred 3 = false →
      ∀ fuel, 3 < fuel →
        waitWhileVisible pred fuel =
          some [.checkVisible .primary playerSel true, .sleep .primary 10,
                .checkVisible .primary playerSel true, .sleep .primary 10,
                .checkVisible .primary playerSel true, .sleep .primary 10,
                .checkVisible .primary playerSel false]) ∧
    ((∀ n, pred n = true) → ∀ fuel, waitWhileVisible pred fuel = none) := by
  constructor
  · intro h0 h1 h2 h3 fuel hf
    have h := waitWhileVisible_exits 3 pred ?_ h3 fuel hf
    · simpa [waitTrace] using h
    · intro i hi
      interval_cases i <;> assumption
  · intro hv fuel
    exact waitWhileVisible_diverges fuel pred hv

theorem C3_wait_loop_termination_witness :
    waitWhileVisible (fun n => decide (n < 3)) 4 =
      some [.checkVisible .primary playerSel true, .sleep .primary 10,
            .checkVisible .primary playerSel true, .sleep .primary 10,
            .checkVisible .primary playerSel true, .sleep .primary 10,
            .checkVisible .primary playerSel false] ∧
    waitWhileVisible (fun _ => true) 7 = none :=
  ⟨(C3_wait_loop_termination (fun n => decide (n < 3))).1
      (by decide) (by decide) (by decide) (by decide) 4 (by decide),
   (C3_wait_loop_termination (fun _ => true)).2 (fun _ => rfl) 7⟩

/-- C2: in either platform variant, when the presence predicate is true at
entry and the invocation returns normally, exactly one secondary session is
spawned and exactly one secondary session is destroyed before the call
returns. -/
theorem C2_spawn_teardown_balanced (url : String) (vis : Nat → Bool)
    (a1 a2 : Bool) (fuel : Nat) (u body : String) (b1 b2 : Bool)
    (hk : vis 0 = true) (hterm : (monitor_kick_stream url vis a1 a2 fuel).isSome)
    (ht : is_twitch_online body = true) :
    countSpawn ((monitor_kick_stream url vis a1 a2 fuel).getD []) = 1 ∧
    countClose .secondary ((monitor_kick_stream url vis a1 a2 fuel).getD []) = 1 ∧
    countSpawn (monitor_twitch_stream u body b1 b2) = 1 ∧
    countClose .secondary (monitor_twitch_stream u body b1 b2) = 1 := by
  have htw : countSpawn (monitor_twitch_stream u body b1 b2) = 1 ∧
      countClose .secondary (monitor_twitch_stream u body b1 b2) = 1 := by
    constructor <;> cases b1 <;> cases b2 <;>
      simp [monitor_twitch_stream, ht, countSpawn, countClose,
        List.countP_append, List.countP_cons]
  cases hw : waitWhileVisible (fun n => vis (n + 1)) fuel with
  | none => simp [monitor_kick_stream, hk, hw] at hterm
  | some wtr =>
    have hws := waitWhileVisible_countP fuel _ wtr hw
      (fun e => match e with | .spawnSecondary _ => true | _ => false)
      (fun _ => rfl) rfl
    have hwc := waitWhileVisible_countP fuel _ wtr hw
      (fun e => match e with | .closeSession t => decide (t = Sess.secondary) | _ => false)
      (fun _ => rfl) rfl
    refine ⟨?_, ?_, htw.1, htw.2⟩ <;> cases a1 <;> cases a2 <;>
      simp [monitor_kick_stream, hk, hw, countSpawn, countClose,
        open_stream_and_handle_popups, handle_captcha,
        List.countP_append, List.countP_cons, hws, hwc]

theorem C2_spawn_teardown_balanced_witness :
    countSpawn ((monitor_kick_stream "https://kick.com/brutalles"
        (fun n => decide (n = 0)) false false 1).getD []) = 1 ∧
    countClose .secondary ((monitor_kick_stream "https://kick.com/brutalles"
        (fun n => decide (n = 0)) false false 1).getD []) = 1 ∧
    countSpawn (monitor_twitch_stream "brutalles" "isLiveBroadcast" false false) = 1 ∧
    countClose .secondary (monitor_twitch_stream "brutalles" "isLiveBroadcast" false false) = 1 :=
  C2_spawn_teardown_balanced "https://kick.com/brutalles" (fun n => decide (n = 0))
    false false 1 "brutalles" "isLiveBroadcast" false false
    (by decide) (by decide) (by decide)

/-- C4: in either platform variant, when the presence predicate is false at
entry the monitor returns at once and its whole trace is the single presence
check: no spawn, no navigation, no click, no session close. -/
theorem C4_not_present_no_effects (url : String) (vis : Nat → Bool)
    (a1 a2 : Bool) (fuel : Nat) (u body : String) (b1 b2 : Bool)
    (hk : vis 0 = false) (ht : is_twitch_online body = false) :
    monitor_kick_stream url vis a1 a2 fuel =
      some [.checkVisible .primary playerSel false] ∧
    monitor_twitch_stream u body b1 b2 = [.probeOnline u false] := by
  constructor
  · simp [monitor_kick_stream, hk]
  · simp [monitor_twitch_stream, ht]

theorem C4_not_present_no_effects_witness :
    monitor_kick_stream "https://kick.com/brutalles" (fun _ => false) false false 0 =
      some [.checkVisible .primary playerSel false] ∧
    monitor_twitch_stream "brutalles" "<html></html>" false false =
      [.probeOnline "brutalles" false] :=
  C4_not_present_no_effects "https://kick.com/brutalles" (fun _ => false)
    false false 0 "brutalles" "<html></html>" false false rfl (by decide)

/-- C9: neither monitor variant ever closes the primary session — every
session-close event either monitor emits targets the secondary, and this
holds for all inputs (the kick monitor's trace taken as empty when it does
not terminate within the fuel). -/
theorem C9_primary_never_closed (url : String) (vis : Nat → Bool)
    (a1 a2 : Bool) (fuel : Nat) (u body : String) (b1 b2 : Bool) :
    countClose .primary ((monitor_kick_stream url vis a1 a2 fuel).getD []) = 0 ∧
    countClose .primary (monitor_twitch_stream u body b1 b2) = 0 := by
  constructor
  · by_cases hk : vis 0 = true
    · cases hw : waitWhileVisible (fun n => vis (n + 1)) fuel with
      | none => simp [monitor_kick_stream, hk, hw, countClose]
      | some wtr =>
        have hwc := waitWhileVisible_countP fuel _ wtr hw
          (fun e => match e with | .closeSession t => decide (t = Sess.primary) | _ => false)
          (fun _ => rfl) rfl
        cases a1 <;> cases a2 <;>
          simp [monitor_kick_stream, hk, hw, countClose,
            open_stream_and_handle_popups, handle_captcha,
            List.countP_append, List.countP_cons, hwc]
    · rw [Bool.not_eq_true] at hk
      simp [monitor_kick_stream, hk, countClose]
  · by_cases ht : is_twitch_online body = true
    · cases b1 <;> cases b2 <;>
        simp [monitor_twitch_stream, ht, countClose,
          List.countP_append, List.countP_cons]
    · rw [Bool.not_eq_true] at ht
      simp [monitor_twitch_stream, ht, countClose]

/-- C5 counterexample: the SessionOpener sequence on the secondary session
contains a CAPTCHA interaction, yet the Twitch monitor's trace when online
contains no CAPTCHA interaction on the secondary — its secondary open is a
bare navigate, not the SessionOpener sequence the Kick variant runs. -/
theorem C5_counterexample :
    Ev.captchaClick .secondary ∈
      open_stream_and_handle_popups .secondary (twitchUrl "brutalles") 5 false ∧
    Ev.captchaClick .secondary ∉
      monitor_twitch_stream "brutalles" "isLiveBroadcast" false false ∧
    Ev.navigate .secondary (twitchUrl "brutalles") 5 ∈
      monitor_twitch_stream "brutalles" "isLiveBroadcast" false false := by
  decide

/-- C5 amended: only the Kick variant's MIRROR_SECONDARY runs the full
SessionOpener sequence on the secondary (navigate with reconnect budget 5,
settle, CAPTCHA handling, consent dismissal), appearing as a contiguous
segment of its trace; the Twitch variant opens its secondary with a bare
navigate with reconnect budget 5 and performs no CAPTCHA handling and no
settle sleep on the secondary at all — the only events following the bare
secondary navigate are the shared 10-second pause (slept on the primary),
the secondary consent re-check with its optional click, and the teardown. -/
theorem C5_mirror_secondary (url : String) (vis : Nat → Bool) (a1 a2 : Bool)
    (fuel : Nat) (u body : String) (b1 b2 : Bool)
    (hk : vis 0 = true) (hterm : (monitor_kick_stream url vis a1 a2 fuel).isSome)
    (ht : is_twitch_online body = true) :
    open_stream_and_handle_popups .secondary url 5 a1 <:+:
      (monitor_kick_stream url vis a1 a2 fuel).getD [] ∧
    Ev.navigate .secondary (twitchUrl u) 5 ∈ monitor_twitch_stream u body b1 b2 ∧
    Ev.captchaClick .secondary ∉ monitor_twitch_stream u body b1 b2 ∧
    Ev.captchaHandle .secondary ∉ monitor_twitch_stream u body b1 b2 ∧
    countSleepsOn .secondary (monitor_twitch_stream u body b1 b2) = 0 ∧
    (∃ pre, monitor_twitch_stream u body b1 b2 =
      pre ++ [.navigate .secondary (twitchUrl u) 5, .sleep .primary 10,
              .checkPresent .secondary acceptSel b2]
        ++ (if b2 then [.click .secondary acceptSel 4] else [])
        ++ [.closeSession .secondary]) := by
  refine ⟨?_, ?_, ?_, ?_, ?_, ?_⟩
  · cases hw : waitWhileVisible (fun n => vis (n + 1)) fuel with
    | none => simp [monitor_kick_stream, hk, hw] at hterm
    | some wtr =>
      refine ⟨[.checkVisible .primary playerSel true, .spawnSecondary true],
        [.sleep .primary 10, .checkPresent .secondary acceptSel a2]
          ++ (if a2 then [.click .secondary acceptSel 4] else [])
          ++ wtr ++ [.closeSession .secondary], ?_⟩
      simp [monitor_kick_stream, hk, hw]
  · cases b1 <;> cases b2 <;> simp [monitor_twitch_stream, ht]
  · cases b1 <;> cases b2 <;> simp [monitor_twitch_stream, ht]
  · cases b1 <;> cases b2 <;> simp [monitor_twitch_stream, ht]
  · cases b1 <;> cases b2 <;>
      simp [monitor_twitch_stream, ht, countSleepsOn,
        List.countP_append, List.countP_cons]
  · refine ⟨[.probeOnline u true, .navigate .primary (twitchUrl u) 5,
      .checkPresent .primary acceptSel b1]
      ++ (if b1 then [.click .primary acceptSel 4] else [])
      ++ [.spawnSecondary true], ?_⟩
    simp [monitor_twitch_stream, ht]

theorem C5_mirror_secondary_witness :
    open_stream_and_handle_popups .secondary "https://kick.com/brutalles" 5 false <:+:
      (monitor_kick_stream "https://kick.com/brutalles"
        (fun n => decide (n = 0)) false false 1).getD [] ∧
    Ev.navigate .secondary (twitchUrl "brutalles") 5 ∈
      monitor_twitch_stream "brutalles" "isLiveBroadcast" false false ∧
    Ev.captchaClick .secondary ∉
      monitor_twitch_stream "brutalles" "isLiveBroadcast" false false ∧
    Ev.captchaHandle .secondary ∉
      monitor_twitch_stream "brutalles" "isLiveBroadcast" false false ∧
    countSleepsOn .secondary
      (monitor_twitch_stream "brutalles" "isLiveBroadcast" false false) = 0 ∧
    (∃ pre, monitor_twitch_stream "brutalles" "isLiveBroadcast" false false =
      pre ++ [.navigate .secondary (twitchUrl "brutalles") 5, .sleep .primary 10,
              .checkPresent .secondary acceptSel false]
        ++ (if false then [.click .secondary acceptSel 4] else [])
        ++ [.closeSession .secondary]) :=
  C5_mirror_secondary "https://kick.com/brutalles" (fun n => decide (n = 0))
    false false 1 "brutalles" "isLiveBroadcast" false false
    (by decide) (by decide) (by decide)

/-- C6 counterexample: at a concrete input the event of `run` that follows
the seven events of the primary-open step is the Kick monitor's entry
presence check, not a 1-second pause — so no 1-second pause separates
step 1 (primary open) from step 2 (player-element monitor). -/
theorem C6_counterexample :
    ((run "brutalles" "https://kick.com/brutalles" false (fun _ => false)
        false false "<html></html>" false false 1).getD []).take 8 =
      open_stream_and_handle_popups .primary "https://kick.com/brutalles" 4 false
        ++ [.checkVisible .primary playerSel false] ∧
    ((run "brutalles" "https://kick.com/brutalles" false (fun _ => false)
        false false "<html></html>" false false 1).getD []).get? 7 ≠
      some (.sleep .primary 1) := by
  decide

/-- C6 amended: in `run`, a 1-second pause separates the player-element
monitor (step 2) from the platform-liveness monitor (step 3) and another
follows step 3, but no pause separates the primary open (step 1) from
step 2: whenever the Kick monitor terminates, the run trace is exactly the
open trace, then the Kick monitor trace, then a 1-second sleep, then the
Twitch monitor trace, then a 1-second sleep and the primary close. -/
theorem C6_pauses (u url : String) (aP : Bool) (vis : Nat → Bool)
    (aK1 aK2 : Bool) (body : String) (aT1 aT2 : Bool) (fuel : Nat)
    (ktr : List Ev) (h : monitor_kick_stream url vis aK1 aK2 fuel = some ktr) :
    run u url aP vis aK1 aK2 body aT1 aT2 fuel =
      some (open_stream_and_handle_popups .primary url 4 aP
        ++ ktr ++ [.sleep .primary 1]
        ++ monitor_twitch_stream u body aT1 aT2
        ++ [.sleep .primary 1, .closeSession .primary]) := by
  simp [run, h]

theorem C6_pauses_witness :
    run "brutalles" "https://kick.com/brutalles" false (fun _ => false)
        false false "<html></html>" false false 1 =
      some (open_stream_and_handle_popups .primary "https://kick.com/brutalles" 4 false
        ++ [.checkVisible .primary playerSel false] ++ [.sleep .primary 1]
        ++ monitor_twitch_stream "brutalles" "<html></html>" false false
        ++ [.sleep .primary 1, .closeSession .primary]) :=
  C6_pauses "brutalles" "https://kick.com/brutalles" false (fun _ => false)
    false false "<html></html>" false false 1
    [.checkVisible .primary playerSel false] (by decide)

/-- C7 counterexample: when the consent button is present, the click on it is
the last event of `open_stream_and_handle_popups` — no settle pause (nor any
other event) follows the click, contradicting the claimed fixed settle pause
after the click. -/
theorem C7_counterexample :
    (open_stream_and_handle_popups .primary "https://kick.com/brutalles" 4 true).getLast? =
      some (.click .primary acceptSel 4) ∧
    countClicks (open_stream_and_handle_popups .primary "https://kick.com/brutalles" 4 true) = 1 := by
  decide

/-- C7 amended: whenever the consent button is present exactly one click is
attempted (carrying the click's own reconnect budget of 4) and the click is
the final action of the step — no separate settle pause follows it; when the
button is absent no click is attempted and the step contributes nothing
beyond the presence check itself. -/
theorem C7_consent_click (s : Sess) (url : String) (r : Nat) :
    (countClicks (open_stream_and_handle_popups s url r true) = 1 ∧
      (open_stream_and_handle_popups s url r true).getLast? =
        some (.click s acceptSel 4)) ∧
    (countClicks (open_stream_and_handle_popups s url r false) = 0 ∧
      open_stream_and_handle_popups s url r false =
        [.navigate s url r, .sleep s 4] ++ handle_captcha s
          ++ [.checkPresent s acceptSel false]) :=
  ⟨⟨rfl, rfl⟩, rfl, rfl⟩

/-- C8: the Twitch monitor variant has no WAIT_WHILE_PRESENT phase: its
trace never polls element visibility, and when the probe reports online the
teardown of the secondary immediately follows the consent re-check (and
optional click) on the secondary — no presence-polling wait loop occurs in
between. -/
theorem C8_no_wait_phase (u body : String) (b1 b2 : Bool)
    (ht : is_twitch_online body = true) :
    countVisChecks (monitor_twitch_stream u body b1 b2) = 0 ∧
    monitor_twitch_stream u body b1 b2 =
      [.probeOnline u true, .navigate .primary (twitchUrl u) 5,
       .checkPresent .primary acceptSel b1]
      ++ (if b1 then [.click .primary acceptSel 4] else [])
      ++ [.spawnSecondary true, .navigate .secondary (twitchUrl u) 5,
          .sleep .primary 10, .checkPresent .secondary acceptSel b2]
      ++ (if b2 then [.click .secondary acceptSel 4] else [])
      ++ [.closeSession .secondary] := by
  constructor
  · cases b1 <;> cases b2 <;>
      simp [monitor_twitch_stream, ht, countVisChecks,
        List.countP_append, List.countP_cons]
  · simp [monitor_twitch_stream, ht]

theorem C8_no_wait_phase_witness :
    countVisChecks (monitor_twitch_stream "brutalles" "isLiveBroadcast" false false) = 0 ∧
    monitor_twitch_stream "brutalles" "isLiveBroadcast" false false =
      [.probeOnline "brutalles" true, .navigate .primary (twitchUrl "brutalles") 5,
       .checkPresent .primary acceptSel false]
      ++ (if false then [.click .primary acceptSel 4] else [])
      ++ [.spawnSecondary true, .navigate .secondary (twitchUrl "brutalles") 5,
          .sleep .primary 10, .checkPresent .secondary acceptSel false]
      ++ (if false then [.click .secondary acceptSel 4] else [])
      ++ [.closeSession .secondary] :=
  C8_no_wait_phase "brutalles" "isLiveBroadcast" false false (by decide)

/-- C10: when the probe reports online, the Twitch monitor first navigates
the PRIMARY session to the channel URL with reconnect budget 5 and performs
the consent check (and possible click) on the primary, and only then spawns
the secondary session: the trace decomposes with those primary-session
effects strictly before the single spawn event. -/
theorem C10_primary_mutated_before_spawn (u body : String) (b1 b2 : Bool)
    (ht : is_twitch_online body = true) :
    ∃ tail, monitor_twitch_stream u body b1 b2 =
      [.probeOnline u true, .navigate .primary (twitchUrl u) 5,
       .checkPresent .primary acceptSel b1]
      ++ (if b1 then [.click .primary acceptSel 4] else [])
      ++ [.spawnSecondary true] ++ tail ∧
      countSpawn tail = 0 := by
  refine ⟨[.navigate .secondary (twitchUrl u) 5, .sleep .primary 10,
      .checkPresent .secondary acceptSel b2]
      ++ (if b2 then [.click .secondary acceptSel 4] else [])
      ++ [.closeSession .secondary], ?_, ?_⟩
  · simp [monitor_twitch_stream, ht]
  · cases b2 <;> simp [countSpawn, List.countP_append, List.countP_cons]

theorem C10_primary_mutated_before_spawn_witness :
    ∃ tail, monitor_twitch_stream "brutalles" "isLiveBroadcast" false false =
      [.probeOnline "brutalles" true, .navigate .primary (twitchUrl "brutalles") 5,
       .checkPresent .primary acceptSel false]
      ++ (if false then [.click .primary acceptSel 4] else [])
      ++ [.spawnSecondary true] ++ tail ∧
      countSpawn tail = 0 :=
  C10_primary_mutated_before_spawn "brutalles" "isLiveBroadcast" false false (by decide)
